import Mathlib

/-!
# TinyG temperature-controller core: a shallow embedding

This file embeds the control core of the TinyG temperature controller
(`src/firmware/temperature/tinyg_tc.c`) and the dispatch-loop pattern shared
with `src/firmware/tinyg/controller.cpp` into Lean, and proves the claims of the spec
about it.

Modelling conventions:
* C `double` fields become `ℚ` (exact arithmetic; the claims are about control
  flow and algebra, not floating-point rounding).  Division follows the Lean
  `ℚ` convention `x / 0 = 0`; no claim depends on a division by zero.
* C `uint8_t`/`int8_t` counters become `ℕ`; the `(uint8_t)` cast of a
  nonnegative double is truncation (`Int.toNat ∘ Int.floor`), reduced mod 256
  for values a conversion of which would be out of range (undefined behaviour
  in C; no claim exercises it).
* The numeric configuration constants and the state/code enumerations live in
  the header `tinyg_tc.h`, which is not part of the sources; they are modelled
  from the spec as a `Config` parameter and as inductive enumerations whose
  constructors are the identifiers the `.c` file uses.
* The global structs `device`, `heater`, `pid`, `sensor` become a record `Sys`
  threaded through the operations.  Hardware configuration registers that are
  written once and never read by the control logic (`TCCR*`, `TIMSK*`, DDR
  ports, the Kinen byte array) are omitted; the registers the logic does read
  back (`OCR2A`, `OCR2B`, `device.pwm_freq`, tick counters) are modelled.
* The ADC (`adc_read`) is modelled as a stream `ℕ → ℕ` of raw conversion
  values together with a cursor counting how many conversions have been
  consumed, so that the retry loop of `_sensor_sample` is observable.
-/

namespace TinyG

/-- Return statuses of a dispatched poll function (`kinen_core.h`): `SC_OK`,
`SC_EAGAIN`, `SC_NOOP`, and a representative for "any other status code",
on which the dispatch loop also falls through. -/
inductive Status where
  | SC_OK : Status
  | SC_EAGAIN : Status
  | SC_NOOP : Status
  | SC_ERR : Status
deriving DecidableEq

/-- One pass of the dispatch loop (`_controller` in `tinyg_tc.c`,
`_controller_HSM` in `controller.cpp`): `DISPATCH(func) if (func == SC_EAGAIN)
return;` applied to an ordered list of poll functions over a state `σ`.
Returns the final state and the number of functions invoked. -/
def run_pass {σ : Type} : List (σ → Status × σ) → σ → σ × ℕ
  | [], s => (s, 0)
  | f :: fs, s =>
    let r := f s
    if r.1 = Status.SC_EAGAIN then (r.2, 1)
    else
      let rest := run_pass fs r.2
      (rest.1, rest.2 + 1)

/-- Index of the first poll function that returns `SC_EAGAIN` along the pass
trajectory, if any. -/
def firstEagain {σ : Type} : List (σ → Status × σ) → σ → Option ℕ
  | [], _ => none
  | f :: fs, s =>
    let r := f s
    if r.1 = Status.SC_EAGAIN then some 0
    else (firstEagain fs r.2).map (· + 1)

/-- State reached by invoking the first `n` poll functions in list order,
ignoring their statuses. -/
def applyFirst {σ : Type} : List (σ → Status × σ) → σ → ℕ → σ
  | _, s, 0 => s
  | [], s, _ + 1 => s
  | f :: fs, s, n + 1 => applyFirst fs (f s).2 n

/-- Heater states (`tinyg_tc.h` is not in the sources; the enumeration is
modelled from the identifiers used in `tinyg_tc.c` and the spec enumeration
`{Off, Heating, AtTarget, Shutdown}`). -/
inductive HState where
  | HEATER_OFF : HState
  | HEATER_HEATING : HState
  | HEATER_AT_TARGET : HState
  | HEATER_SHUTDOWN : HState
deriving DecidableEq

/-- Heater fault codes; `HEATER_CODE_INIT` is the zero value `memset` leaves,
the other two are the codes `heater_callback` passes to `heater_off`. -/
inductive HeaterCode where
  | HEATER_CODE_INIT : HeaterCode
  | HEATER_AMBIENT_TIMED_OUT : HeaterCode
  | HEATER_REGULATION_TIMED_OUT : HeaterCode
deriving DecidableEq

/-- PID states; `pid.state` is only ever compared against `PID_OFF` and
assigned `PID_ON`. -/
inductive PidState where
  | PID_OFF : PidState
  | PID_ON : PidState
deriving DecidableEq

/-- Sensor states used by `tinyg_tc.c` (the spec state `Idle` is
`SENSOR_HAS_NO_DATA`). -/
inductive SensorState where
  | SENSOR_OFF : SensorState
  | SENSOR_HAS_NO_DATA : SensorState
  | SENSOR_HAS_DATA : SensorState
  | SENSOR_SHUTDOWN : SensorState
deriving DecidableEq

/-- Sensor codes used by `tinyg_tc.c`; `SENSOR_CODE_INIT` is the zero value
`memset` leaves. -/
inductive SensorCode where
  | SENSOR_CODE_INIT : SensorCode
  | SENSOR_IS_READING : SensorCode
  | SENSOR_READING_COMPLETE : SensorCode
  | SENSOR_READING_FAILED_BAD_READINGS : SensorCode
  | SENSOR_READING_FAILED_DISCONNECTED : SensorCode
  | SENSOR_READING_FAILED_NO_POWER : SensorCode
deriving DecidableEq

/-- Modelled from the spec: the compile-time configuration constants of
`tinyg_tc.h`, which is not under the sources.  Each field is the named constant of the
same name; values are left abstract and constrained per-theorem where a claim
needs an ordering fact (e.g. `HOTTER_THAN_THE_SUN > SURFACE_OF_THE_SUN`). -/
structure Config where
  F_CPU : ℚ
  PWM_PRESCALE : ℚ
  PWM_MIN_RES : ℕ
  PWM_MAX_RES : ℕ
  PWM_FREQUENCY : ℚ
  HEATER_TICK_SECONDS : ℚ
  HEATER_AMBIENT_TIMEOUT : ℚ
  HEATER_REGULATION_TIMEOUT : ℚ
  HEATER_AMBIENT_TEMPERATURE : ℚ
  HEATER_OVERHEAT_TEMPERATURE : ℚ
  PID_DT : ℚ
  PID_EPSILON : ℚ
  PID_Kp : ℚ
  PID_Ki : ℚ
  PID_Kd : ℚ
  PID_MAX_OUTPUT : ℚ
  PID_MIN_OUTPUT : ℚ
  SENSOR_SAMPLES_PER_READING : ℕ
  SENSOR_RETRIES : ℕ
  SENSOR_VARIANCE_RANGE : ℚ
  SENSOR_DISCONNECTED_TEMPERATURE : ℚ
  SENSOR_NO_POWER_TEMPERATURE : ℚ
  SENSOR_SLOPE : ℚ
  SENSOR_OFFSET : ℚ
  ABSOLUTE_ZERO : ℚ
  SURFACE_OF_THE_SUN : ℚ
  HOTTER_THAN_THE_SUN : ℚ

/-- `struct Device`: tick bookkeeping, the saved PWM frequency, and the PWM
compare registers `OCR2A` (TOP value) / `OCR2B` (duty compare) the control
logic reads back.  Write-only hardware-configuration registers are omitted. -/
structure Device where
  tick_flag : Bool
  tick_100ms_count : ℕ
  tick_1sec_count : ℕ
  pwm_freq : ℚ
  OCR2A : ℕ
  OCR2B : ℕ

/-- `struct Heater` of `tinyg_tc.c`. -/
structure Heater where
  state : HState
  code : HeaterCode
  temperature : ℚ
  setpoint : ℚ
  regulation_timer : ℚ
  ambient_timeout : ℚ
  regulation_timeout : ℚ
  ambient_temperature : ℚ
  overheat_temperature : ℚ

/-- `struct PIDstruct` of `tinyg_tc.c` (`code` is set by `memset` only). -/
structure PIDstruct where
  state : PidState
  code : ℕ
  output : ℚ
  output_max : ℚ
  output_min : ℚ
  error : ℚ
  prev_error : ℚ
  integral : ℚ
  derivative : ℚ
  dt : ℚ
  Kp : ℚ
  Ki : ℚ
  Kd : ℚ
  temperature : ℚ
  setpoint : ℚ

/-- `struct TemperatureSensor` of `tinyg_tc.c`.  `samples` is `int8_t` in C
but only ever holds `0 ≤ samples ≤ samples_per_reading`. -/
structure TemperatureSensor where
  state : SensorState
  code : SensorCode
  samples_per_reading : ℕ
  samples : ℕ
  retries : ℕ
  temperature : ℚ
  previous_temp : ℚ
  accumulator : ℚ
  variance : ℚ
  disconnect_temperature : ℚ
  no_power_temperature : ℚ

/-- The four global structs threaded together. -/
structure Sys where
  device : Device
  heater : Heater
  pid : PIDstruct
  sensor : TemperatureSensor

/-- `(uint8_t)` cast of a C `double`: truncation toward zero for the
nonnegative in-range values the code produces (out-of-range conversion is
undefined behaviour in C; modelled as clamp-at-zero and wraparound). -/
def toUint8 (q : ℚ) : ℕ := (Int.toNat ⌊q⌋) % 256

/-! ## PID functions (`pid_init`, `pid_reset`, `pid_calculate`) -/

/-- `pid_init()`: `memset` to zero, then set gains, time constant, saturation
bounds and `state = PID_ON`. -/
def pid_init (cfg : Config) : PIDstruct where
  state := PidState.PID_ON
  code := 0
  output := 0
  output_max := cfg.PID_MAX_OUTPUT
  output_min := cfg.PID_MIN_OUTPUT
  error := 0
  prev_error := 0
  integral := 0
  derivative := 0
  dt := cfg.PID_DT
  Kp := cfg.PID_Kp
  Ki := cfg.PID_Ki
  Kd := cfg.PID_Kd
  temperature := 0
  setpoint := 0

/-- `pid_reset()`: zero the integral and the previous error. -/
def pid_reset (p : PIDstruct) : PIDstruct :=
  { p with integral := 0, prev_error := 0 }

/-- `pid_calculate(setpoint, temperature)`: returns the duty-cycle output and
the updated PID struct.  Early-out `0` when `state == PID_OFF`; otherwise the
error/integral/derivative updates, the saturation filter, and the
unconditional `prev_error` update, exactly as in `tinyg_tc.c`. -/
def pid_calculate (cfg : Config) (p : PIDstruct) (setpoint temperature : ℚ) :
    ℚ × PIDstruct :=
  if p.state = PidState.PID_OFF then (0, p)
  else
    let p1 := { p with setpoint := setpoint, temperature := temperature,
                       error := setpoint - temperature }
    let p2 := { p1 with integral :=
      if |p1.error| > cfg.PID_EPSILON then p1.integral + p1.error * p1.dt
      else p1.integral }
    let p3 := { p2 with derivative := (p2.error - p2.prev_error) / p2.dt }
    let raw := p3.Kp * p3.error + p3.Ki * p3.integral + p3.Kd * p3.derivative
    let out := if raw > p3.output_max then p3.output_max
               else if raw < p3.output_min then p3.output_min
               else raw
    let p4 := { p3 with output := out, prev_error := p3.error }
    (out, p4)

/-! ## Sensor functions -/

/-- `sensor_init()`: `memset` to zero, then set the sampling parameters. -/
def sensor_init (cfg : Config) : TemperatureSensor where
  state := SensorState.SENSOR_HAS_NO_DATA
  code := SensorCode.SENSOR_CODE_INIT
  samples_per_reading := cfg.SENSOR_SAMPLES_PER_READING
  samples := 0
  retries := cfg.SENSOR_RETRIES
  temperature := cfg.ABSOLUTE_ZERO
  previous_temp := 0
  accumulator := 0
  variance := cfg.SENSOR_VARIANCE_RANGE
  disconnect_temperature := cfg.SENSOR_DISCONNECTED_TEMPERATURE
  no_power_temperature := cfg.SENSOR_NO_POWER_TEMPERATURE

/-- `sensor_on()`: the body is empty — "no action actually occurs". -/
def sensor_on (sn : TemperatureSensor) : TemperatureSensor := sn

/-- `sensor_off()`: set `state = SENSOR_OFF`. -/
def sensor_off (sn : TemperatureSensor) : TemperatureSensor :=
  { sn with state := SensorState.SENSOR_OFF }

/-- `sensor_get_temperature()`: the reading when `SENSOR_HAS_DATA`, otherwise
`SURFACE_OF_THE_SUN` ("a value that should say Shut me off! Now!"). -/
def sensor_get_temperature (cfg : Config) (sn : TemperatureSensor) : ℚ :=
  if sn.state = SensorState.SENSOR_HAS_DATA then sn.temperature
  else cfg.SURFACE_OF_THE_SUN

/-- `sensor_get_state()`. -/
def sensor_get_state (sn : TemperatureSensor) : SensorState := sn.state

/-- `sensor_start_temperature_reading()`: `sensor.samples = 0`. -/
def sensor_start_temperature_reading (sn : TemperatureSensor) : TemperatureSensor :=
  { sn with samples := 0 }

/-- The `SAMPLE(a)` define from the source: one ADC conversion put through the fixed linear
calibration `adc_value * SENSOR_SLOPE + SENSOR_OFFSET`.  The ADC is a stream
of raw values indexed by a cursor `k` counting conversions consumed. -/
def SAMPLE (cfg : Config) (adc : ℕ → ℕ) (k : ℕ) : ℚ :=
  (adc k : ℚ) * cfg.SENSOR_SLOPE + cfg.SENSOR_OFFSET

/-- The retry loop of `_sensor_sample`: `for (i = retries; i > 0; --i)` tests
the current `sample` against `previous_temp`; within the variance range it is
accepted (and becomes the new `previous_temp`), otherwise another conversion
is consumed and retried.  On exhaustion returns `HOTTER_THAN_THE_SUN`.
Returns `(value, next cursor, previous_temp)`. -/
def sensorRetry (cfg : Config) (adc : ℕ → ℕ) (prev variance : ℚ) :
    ℚ → ℕ → ℕ → ℚ × ℕ × ℚ
  | _, k, 0 => (cfg.HOTTER_THAN_THE_SUN, k, prev)
  | sample, k, i + 1 =>
    if |sample - prev| < variance then (sample, k, sample)
    else sensorRetry cfg adc prev variance (SAMPLE cfg adc k) (k + 1) i

/-- `_sensor_sample(adc_channel, new_period)`: the first sample of a period is
recorded unconditionally as the variance reference; later samples go through
the bounded retry loop. -/
def sensor_sample (cfg : Config) (adc : ℕ → ℕ) (k : ℕ) (prev : ℚ)
    (retries : ℕ) (variance : ℚ) (new_period : Bool) : ℚ × ℕ × ℚ :=
  let sample := SAMPLE cfg adc k
  if new_period then (sample, k + 1, sample)
  else sensorRetry cfg adc prev variance sample (k + 1) retries

/-- The tail of `sensor_callback()` once `samples == samples_per_reading`:
record `temperature = accumulator / samples` (the arithmetic mean) and
classify the completed reading — above the disconnect threshold is the
"disconnected" fault, below the no-power threshold the "no power" fault (both
return to the dataless `SENSOR_HAS_NO_DATA`), otherwise the reading is
complete and the sensor holds data. -/
def classifySensor (cfg : Config) (t : TemperatureSensor) : TemperatureSensor :=
  let t4 := { t with temperature := t.accumulator / (t.samples : ℚ) }
  if t4.temperature > cfg.SENSOR_DISCONNECTED_TEMPERATURE then
    { t4 with code := SensorCode.SENSOR_READING_FAILED_DISCONNECTED,
              state := SensorState.SENSOR_HAS_NO_DATA }
  else if t4.temperature < cfg.SENSOR_NO_POWER_TEMPERATURE then
    { t4 with code := SensorCode.SENSOR_READING_FAILED_NO_POWER,
              state := SensorState.SENSOR_HAS_NO_DATA }
  else
    { t4 with code := SensorCode.SENSOR_READING_COMPLETE,
              state := SensorState.SENSOR_HAS_DATA }

/-- `sensor_callback()` (10 ms tick): accumulate one accepted sample; on the
`samples_per_reading`-th accepted sample record the mean and classify it
(disconnected / no power / complete); on retry exhaustion latch
`SENSOR_SHUTDOWN` with the bad-readings code.  Returns the updated sensor and
the new ADC cursor. -/
def sensor_callback (cfg : Config) (adc : ℕ → ℕ) (sn : TemperatureSensor)
    (k : ℕ) : TemperatureSensor × ℕ :=
  if sn.state = SensorState.SENSOR_OFF ∨ sn.state = SensorState.SENSOR_SHUTDOWN then
    (sn, k)
  else if sn.code = SensorCode.SENSOR_READING_COMPLETE then (sn, k)
  else
    let new_period := sn.samples = 0
    let sn1 := if sn.samples = 0 then
                 { sn with accumulator := 0, code := SensorCode.SENSOR_IS_READING }
               else sn
    let r := sensor_sample cfg adc k sn1.previous_temp sn1.retries sn1.variance new_period
    let temperature := r.1
    let sn2 := { sn1 with previous_temp := r.2.2 }
    if temperature > cfg.SURFACE_OF_THE_SUN then
      ({ sn2 with code := SensorCode.SENSOR_READING_FAILED_BAD_READINGS,
                  state := SensorState.SENSOR_SHUTDOWN }, r.2.1)
    else
      let sn3 := { sn2 with accumulator := sn2.accumulator + temperature,
                            samples := sn2.samples + 1 }
      if sn3.samples < sn3.samples_per_reading then (sn3, r.2.1)
      else (classifySensor cfg sn3, r.2.1)

/-- `n` successive 10 ms sensor polls (`sensor_callback`), threading the
sensor state and the ADC cursor. -/
def sensorPolls (cfg : Config) (adc : ℕ → ℕ) :
    ℕ → TemperatureSensor × ℕ → TemperatureSensor × ℕ
  | 0, p => p
  | n + 1, p =>
    let q := sensorPolls cfg adc n p
    sensor_callback cfg adc q.1 q.2

/-- The sensor state in the middle of a reading that started from `sn` at ADC
cursor `k` and has accepted `m ≥ 1` samples so far, each on the first try. -/
def midSensor (cfg : Config) (adc : ℕ → ℕ) (k : ℕ) (sn : TemperatureSensor)
    (m : ℕ) : TemperatureSensor :=
  { sn with
    samples := m
    accumulator := ∑ j ∈ Finset.range m, SAMPLE cfg adc (k + j)
    previous_temp := SAMPLE cfg adc (k + m - 1)
    code := SensorCode.SENSOR_IS_READING }

/-! ## PWM functions -/

/-- `pwm_init()`: clear `OCR2A`, `OCR2B` and the saved frequency (the timer
mode/prescaler configuration registers are not modelled). -/
def pwm_init (d : Device) : Device :=
  { d with OCR2A := 0, OCR2B := 0, pwm_freq := 0 }

/-- `pwm_set_freq(freq)`: store `F_CPU / PWM_PRESCALE / freq` and load the
clamped TOP value into `OCR2A`.  In C, `freq = 0` makes the stored quotient
IEEE infinity (so the `≥ PWM_MAX_RES` branch fires); in `ℚ` the quotient is
`0` (so the `< PWM_MIN_RES` branch fires) — only `pwm_off` takes this path and
no claim reads `OCR2A` after it. -/
def pwm_set_freq (cfg : Config) (d : Device) (freq : ℚ) : Device :=
  let d1 := { d with pwm_freq := cfg.F_CPU / cfg.PWM_PRESCALE / freq }
  if d1.pwm_freq < (cfg.PWM_MIN_RES : ℚ) then { d1 with OCR2A := cfg.PWM_MIN_RES }
  else if d1.pwm_freq ≥ (cfg.PWM_MAX_RES : ℚ) then { d1 with OCR2A := cfg.PWM_MAX_RES }
  else { d1 with OCR2A := toUint8 d1.pwm_freq }

/-- `pwm_set_duty(duty)`: `duty ≤ 0` writes `OCR2B = 255` (output held low —
fully off, per the source comments on the inverted-mode workaround),
`duty > 100` writes `OCR2B = 0` (output held high — fully on, the same value
`duty = 100` produces), and in between `OCR2B = (uint8)(OCR2A*(1-duty/100))`;
then `OCR2A` is reloaded from the saved frequency. -/
def pwm_set_duty (d : Device) (duty : ℚ) : Device :=
  let d1 := if duty ≤ 0 then { d with OCR2B := 255 }
            else if duty > 100 then { d with OCR2B := 0 }
            else { d with OCR2B := toUint8 ((d.OCR2A : ℚ) * (1 - duty / 100)) }
  { d1 with OCR2A := toUint8 d1.pwm_freq }

/-- `pwm_on(freq, duty)` = `pwm_init(); pwm_set_freq(freq); pwm_set_duty(duty)`. -/
def pwm_on (cfg : Config) (d : Device) (freq duty : ℚ) : Device :=
  pwm_set_duty (pwm_set_freq cfg (pwm_init d) freq) duty

/-- `pwm_off()` = `pwm_on(0, 0)`. -/
def pwm_off (cfg : Config) (d : Device) : Device :=
  pwm_on cfg d 0 0

/-- Underlying "on time" of the software-inverted PWM channel as a strictly
decreasing function of the duty compare register: per the source comments,
`OCR2B = 255` (the `duty ≤ 0` case) disables the channel with the output low
— fully off — and `OCR2B = 0` (the `duty = 100` case) disables it with the
output high — fully on — with intermediate compare values scaling the on
fraction downward as `OCR2B` grows. -/
def pwm_on_time (d : Device) : ℕ := 255 - d.OCR2B

/-! ## Heater functions -/

/-- `heater_init()`: `memset` the heater struct to zero (state `HEATER_OFF`,
code and numeric fields zero), set the timeouts and thresholds, then
re-initialize the sensor and the PID.  PWM and ADC are initialized by
`device_init`, not here. -/
def heater_init (cfg : Config) (s : Sys) : Sys :=
  { s with
    heater :=
      { state := HState.HEATER_OFF
        code := HeaterCode.HEATER_CODE_INIT
        temperature := 0
        setpoint := 0
        regulation_timer := 0
        ambient_timeout := cfg.HEATER_AMBIENT_TIMEOUT
        regulation_timeout := cfg.HEATER_REGULATION_TIMEOUT
        ambient_temperature := cfg.HEATER_AMBIENT_TEMPERATURE
        overheat_temperature := cfg.HEATER_OVERHEAT_TEMPERATURE }
    sensor := sensor_init cfg
    pid := pid_init cfg }

/-- `heater_on(setpoint)`: no action if already `HEATER_HEATING` or
`HEATER_AT_TARGET`; otherwise `sensor_on()` (a no-op), `pid_reset()`,
`pwm_on(PWM_FREQUENCY, 0)`, then set the setpoint and `state = HEATER_HEATING`.
Note: `heater.regulation_timer` is not touched. -/
def heater_on (cfg : Config) (setpoint : ℚ) (s : Sys) : Sys :=
  if s.heater.state = HState.HEATER_HEATING ∨
     s.heater.state = HState.HEATER_AT_TARGET then s
  else
    { s with
      sensor := sensor_on s.sensor
      pid := pid_reset s.pid
      device := pwm_on cfg s.device cfg.PWM_FREQUENCY 0
      heater := { s.heater with setpoint := setpoint,
                                state := HState.HEATER_HEATING } }

/-- `heater_off(state, code)`: `pwm_off()`, `sensor_off()`, then record the
requested state and code. -/
def heater_off (cfg : Config) (state : HState) (code : HeaterCode) (s : Sys) : Sys :=
  { s with
    device := pwm_off cfg s.device
    sensor := sensor_off s.sensor
    heater := { s.heater with state := state, code := code } }

/-- `heater_callback()` (100 ms tick): no-op when `HEATER_OFF`/`HEATER_SHUTDOWN`;
start another sensor reading; bail out while the sensor has no data; otherwise
record the temperature, run the PID, apply the duty cycle, and in
`HEATER_HEATING` advance `regulation_timer` and evaluate the ambient and
regulation timeouts, each forcing `heater_off(HEATER_SHUTDOWN, code)`. -/
def heater_callback (cfg : Config) (s : Sys) : Sys :=
  if s.heater.state = HState.HEATER_OFF ∨
     s.heater.state = HState.HEATER_SHUTDOWN then s
  else
    let s1 := { s with sensor := sensor_start_temperature_reading s.sensor }
    if sensor_get_state s1.sensor ≠ SensorState.SENSOR_HAS_DATA then s1
    else
      let s2 := { s1 with heater :=
        { s1.heater with temperature := sensor_get_temperature cfg s1.sensor } }
      let pc := pid_calculate cfg s2.pid s2.heater.setpoint s2.heater.temperature
      let s3 := { s2 with pid := pc.2, device := pwm_set_duty s2.device pc.1 }
      if s3.heater.state = HState.HEATER_HEATING then
        let h : Heater := { s3.heater with
          regulation_timer := s3.heater.regulation_timer + cfg.HEATER_TICK_SECONDS }
        let s4 : Sys := { s3 with heater := h }
        if h.temperature < h.ambient_temperature ∧
           h.regulation_timer > h.ambient_timeout then
          heater_off cfg HState.HEATER_SHUTDOWN HeaterCode.HEATER_AMBIENT_TIMED_OUT s4
        else if h.temperature < h.setpoint ∧
                h.regulation_timer > h.regulation_timeout then
          heater_off cfg HState.HEATER_SHUTDOWN HeaterCode.HEATER_REGULATION_TIMED_OUT s4
        else s4
      else s3

/-- The heater operations performed by the repository: `heater_init`;
`heater_on(setpoint)`; `heater_off` with target `HEATER_SHUTDOWN` (its only
call sites in `tinyg_tc.c`, in `heater_callback`) or target `HEATER_OFF` (the
host "turn heater off" command at the interface boundary, as in the spec
form `turn_off(Off, code)`); and the 100 ms poll `heater_callback`. -/
inductive HeaterOp where
  | hinit : HeaterOp
  | hon (setpoint : ℚ) : HeaterOp
  | hoff_off (code : HeaterCode) : HeaterOp
  | hoff_shutdown (code : HeaterCode) : HeaterOp
  | hpoll : HeaterOp

/-- Interpretation of a heater operation on the system state. -/
def applyHeaterOp (cfg : Config) (s : Sys) : HeaterOp → Sys
  | HeaterOp.hinit => heater_init cfg s
  | HeaterOp.hon sp => heater_on cfg sp s
  | HeaterOp.hoff_off code => heater_off cfg HState.HEATER_OFF code s
  | HeaterOp.hoff_shutdown code => heater_off cfg HState.HEATER_SHUTDOWN code s
  | HeaterOp.hpoll => heater_callback cfg s

/-! ## Concrete fixtures used by witnesses and counterexamples -/

/-- A concrete configuration with realistic values (8 MHz AVR, 0.1 s heater
tick, PID output in `[0,100]`); used only to instantiate theorems. -/
def cfg0 : Config where
  F_CPU := 8000000
  PWM_PRESCALE := 64
  PWM_MIN_RES := 20
  PWM_MAX_RES := 255
  PWM_FREQUENCY := 100
  HEATER_TICK_SECONDS := 1/10
  HEATER_AMBIENT_TIMEOUT := 90
  HEATER_REGULATION_TIMEOUT := 300
  HEATER_AMBIENT_TEMPERATURE := 40
  HEATER_OVERHEAT_TEMPERATURE := 300
  PID_DT := 1/10
  PID_EPSILON := 1/10
  PID_Kp := 1
  PID_Ki := 1/10
  PID_Kd := 1/100
  PID_MAX_OUTPUT := 100
  PID_MIN_OUTPUT := 0
  SENSOR_SAMPLES_PER_READING := 8
  SENSOR_RETRIES := 4
  SENSOR_VARIANCE_RANGE := 20
  SENSOR_DISCONNECTED_TEMPERATURE := 400
  SENSOR_NO_POWER_TEMPERATURE := -50
  SENSOR_SLOPE := 7/5
  SENSOR_OFFSET := -120
  ABSOLUTE_ZERO := -273
  SURFACE_OF_THE_SUN := 5505
  HOTTER_THAN_THE_SUN := 10000

/-- A concrete device state (PWM previously configured). -/
def dev0 : Device where
  tick_flag := false
  tick_100ms_count := 10
  tick_1sec_count := 10
  pwm_freq := 212
  OCR2A := 212
  OCR2B := 0

/-- A concrete system state as left by `device_init(); heater_init()`. -/
def sys0 : Sys where
  device := dev0
  heater :=
    { state := HState.HEATER_OFF
      code := HeaterCode.HEATER_CODE_INIT
      temperature := 0
      setpoint := 0
      regulation_timer := 0
      ambient_timeout := 90
      regulation_timeout := 300
      ambient_temperature := 40
      overheat_temperature := 300 }
  pid := pid_init cfg0
  sensor := sensor_init cfg0

/-- `sys0` with the heater latched in `HEATER_SHUTDOWN`. -/
def sysShutdown : Sys :=
  { sys0 with heater := { sys0.heater with state := HState.HEATER_SHUTDOWN } }

/-- `sys0` with accumulated regulation time and the sensor switched off, as
after a running heating cycle was shut off. -/
def sysC4 : Sys :=
  { sys0 with
    heater := { sys0.heater with regulation_timer := 5 }
    sensor := sensor_off (sensor_init cfg0) }

/-- A constant in-range ADC stream (calibrates to 250·7/5 − 120 = 230 °C). -/
def adcConst : ℕ → ℕ := fun _ => 250

/-- A constant ADC stream far away from the accepted reference (calibrates to
440 °C, more than the variance range from 230 °C). -/
def adcBad : ℕ → ℕ := fun _ => 400

/-- A sensor in the middle of a reading: one sample (230 °C) accepted. -/
def snMid : TemperatureSensor :=
  { sensor_init cfg0 with
    samples := 1
    previous_temp := 230
    accumulator := 230
    code := SensorCode.SENSOR_IS_READING }

/-- A system with the heater actively heating and the sensor mid-reading. -/
def sysC2 : Sys :=
  { sys0 with
    heater := { sys0.heater with state := HState.HEATER_HEATING, setpoint := 200 }
    sensor := snMid }

/-! ## Theorems -/

theorem run_pass_count_eagain {σ : Type} (fs : List (σ → Status × σ)) (s : σ) :
    ∀ i, firstEagain fs s = some i → (run_pass fs s).2 = i + 1 := by
  induction fs generalizing s with
  | nil => intro i h; simp [firstEagain] at h
  | cons f fs ih =>
    intro i h
    simp only [firstEagain, run_pass] at *
    by_cases hf : (f s).1 = Status.SC_EAGAIN
    · simp [hf] at h ⊢; omega
    · simp [hf] at h ⊢
      obtain ⟨j, hj, rfl⟩ := h
      simpa using ih (f s).2 j hj

theorem run_pass_count_none {σ : Type} (fs : List (σ → Status × σ)) (s : σ) :
    firstEagain fs s = none → (run_pass fs s).2 = fs.length := by
  induction fs generalizing s with
  | nil => intro _; simp [run_pass]
  | cons f fs ih =>
    intro h
    simp only [firstEagain] at h
    by_cases hf : (f s).1 = Status.SC_EAGAIN
    · simp [hf] at h
    · simp [hf] at h
      simp [run_pass, hf, ih _ h]

theorem run_pass_state_applyFirst {σ : Type} (fs : List (σ → Status × σ)) (s : σ) :
    (run_pass fs s).1 = applyFirst fs s (run_pass fs s).2 := by
  induction fs generalizing s with
  | nil => simp [run_pass, applyFirst]
  | cons f fs ih =>
    by_cases hf : (f s).1 = Status.SC_EAGAIN
    · simp [run_pass, hf, applyFirst]
    · simp [run_pass, hf, applyFirst, ih]

/-- C1: a scheduler pass invokes the poll functions from the top of the list;
if the first function returning `SC_EAGAIN` (NotYetDone) along the pass is the
`i`-th one, exactly the functions `0..i` are invoked — the pass terminates at
`i` and no lower-priority (later-listed) function runs; on `SC_OK`/`SC_NOOP`
(or any other status) evaluation continues, so a pass in which no function
returns `SC_EAGAIN` invokes all `fs.length` functions; and the resulting state
is exactly the in-order composition of the invoked initial segment.  Applied at the
state of any later pass, the `none` case is the spec sentence "subsequent pass in
which no function returns NotYetDone invokes every function in order". -/
theorem scheduler_run_pass_spec {σ : Type} (fs : List (σ → Status × σ)) (s : σ) :
    ((run_pass fs s).2 =
      (match firstEagain fs s with
        | some i => i + 1
        | none => fs.length)) ∧
    (run_pass fs s).1 = applyFirst fs s (run_pass fs s).2 := by
  constructor
  · cases h : firstEagain fs s with
    | none => simpa using run_pass_count_none fs s h
    | some i => simpa using run_pass_count_eagain fs s i h
  · exact run_pass_state_applyFirst fs s

/-- The saturation filter written as `max`/`min`. -/
theorem clamp_eq (a b x : ℚ) (hab : a ≤ b) :
    (if x > b then b else if x < a then a else x) = max a (min b x) := by
  split_ifs with h1 h2
  · rw [min_eq_left (le_of_lt h1), max_eq_right hab]
  · rw [min_eq_right (le_of_not_lt h1), max_eq_left (le_of_lt h2)]
  · rw [min_eq_right (le_of_not_lt h1), max_eq_right (le_of_not_lt h2)]

/-- C6: `pid_calculate` returns `0` when the PID is disabled; when enabled it
returns `Kp*error + Ki*integral + Kd*derivative` (with the integral already
conditionally accumulated and the derivative `(error - prev_error)/dt`)
hard-clamped to `[output_min, output_max]`, and the returned output lies in
`[output_min, output_max]` for every setpoint/measured pair. -/
theorem pid_calculate_clamped (cfg : Config) (p : PIDstruct) (sp t : ℚ)
    (hminmax : p.output_min ≤ p.output_max) :
    (p.state = PidState.PID_OFF → (pid_calculate cfg p sp t).1 = 0) ∧
    (p.state = PidState.PID_ON →
      (pid_calculate cfg p sp t).1 =
        max p.output_min (min p.output_max
          (p.Kp * (sp - t) +
           p.Ki * (if |sp - t| > cfg.PID_EPSILON then p.integral + (sp - t) * p.dt
                   else p.integral) +
           p.Kd * ((sp - t - p.prev_error) / p.dt))) ∧
      p.output_min ≤ (pid_calculate cfg p sp t).1 ∧
      (pid_calculate cfg p sp t).1 ≤ p.output_max) := by
  constructor
  · intro h
    simp [pid_calculate, h]
  · intro h
    have hne : ¬ p.state = PidState.PID_OFF := by rw [h]; exact fun hc => by cases hc
    have hval : (pid_calculate cfg p sp t).1 =
        max p.output_min (min p.output_max
          (p.Kp * (sp - t) +
           p.Ki * (if |sp - t| > cfg.PID_EPSILON then p.integral + (sp - t) * p.dt
                   else p.integral) +
           p.Kd * ((sp - t - p.prev_error) / p.dt))) := by
      simp only [pid_calculate, if_neg hne]
      exact clamp_eq _ _ _ hminmax
    refine ⟨hval, ?_, ?_⟩
    · rw [hval]; exact le_max_left _ _
    · rw [hval]
      exact max_le hminmax (min_le_left _ _)

/-- Closed witness for `pid_calculate_clamped`: the PID as initialized by
`pid_init cfg0` (bounds `[0,100]`), driven with `setpoint = 200`,
`measured = 25`. -/
theorem pid_calculate_clamped_witness :
    (pid_init cfg0).output_min ≤ (pid_init cfg0).output_max ∧
    (pid_init cfg0).output_min ≤ (pid_calculate cfg0 (pid_init cfg0) 200 25).1 ∧
    (pid_calculate cfg0 (pid_init cfg0) 200 25).1 ≤ (pid_init cfg0).output_max := by
  have h : (pid_init cfg0).output_min ≤ (pid_init cfg0).output_max := by
    show (0 : ℚ) ≤ 100
    norm_num
  exact ⟨h, ((pid_calculate_clamped cfg0 (pid_init cfg0) 200 25 h).2 rfl).2⟩

/-- At steady state (`setpoint = measured`, hence `error = 0`) a
`pid_calculate` call leaves the integral unchanged (for a disabled PID it is
an early-out; for an enabled one, `|0| > PID_EPSILON` fails for any
nonnegative epsilon). -/
theorem pid_steady_integral (cfg : Config) (sp : ℚ) (heps : 0 ≤ cfg.PID_EPSILON)
    (q : PIDstruct) : (pid_calculate cfg q sp sp).2.integral = q.integral := by
  by_cases h : q.state = PidState.PID_OFF
  · simp [pid_calculate, h]
  · simp [pid_calculate, h, sub_self, abs_zero, not_lt.mpr heps]

/-- C7: on an enabled `pid_calculate` call the integral accumulates
`error * dt` exactly when `|error|` exceeds `PID_EPSILON` and is unchanged
otherwise, `prev_error` is updated to the current error unconditionally, and
repeated calls with `setpoint = measured` leave the integral unchanged. -/
theorem pid_integral_antiwindup (cfg : Config) (p : PIDstruct) (sp t : ℚ)
    (hon : p.state = PidState.PID_ON) (heps : 0 ≤ cfg.PID_EPSILON) :
    ((pid_calculate cfg p sp t).2.integral =
       (if |sp - t| > cfg.PID_EPSILON then p.integral + (sp - t) * p.dt
        else p.integral)) ∧
    (pid_calculate cfg p sp t).2.prev_error = sp - t ∧
    ∀ n : ℕ, ((fun q => (pid_calculate cfg q sp sp).2)^[n] p).integral = p.integral := by
  have hne : ¬ p.state = PidState.PID_OFF := by rw [hon]; exact fun hc => by cases hc
  refine ⟨?_, ?_, ?_⟩
  · simp only [pid_calculate, if_neg hne]
  · simp only [pid_calculate, if_neg hne]
  · intro n
    induction n with
    | zero => simp
    | succ n ih =>
      rw [Function.iterate_succ_apply', pid_steady_integral cfg sp heps, ih]

/-- Closed witness for `pid_integral_antiwindup`: the freshly initialized PID
(enabled, `PID_EPSILON = 1/10 ≥ 0`), one active call at `(200, 25)` and five
steady-state calls at `(200, 200)`. -/
theorem pid_integral_antiwindup_witness :
    (pid_init cfg0).state = PidState.PID_ON ∧
    (0 : ℚ) ≤ cfg0.PID_EPSILON ∧
    (pid_calculate cfg0 (pid_init cfg0) 200 25).2.prev_error = 200 - 25 ∧
    ((fun q => (pid_calculate cfg0 q 200 200).2)^[5] (pid_init cfg0)).integral =
      (pid_init cfg0).integral := by
  have heps : (0 : ℚ) ≤ cfg0.PID_EPSILON := by
    show (0 : ℚ) ≤ 1/10
    norm_num
  have h := pid_integral_antiwindup cfg0 (pid_init cfg0) 200 25 rfl heps
  exact ⟨rfl, heps, h.2.1, h.2.2 5⟩

/-- C9: `heater_on(setpoint)` immediately followed by
`heater_off(HEATER_OFF, code)` leaves the PID integral and `prev_error` at
zero on the next `heater_on` — the next transition into an active heating
cycle starts with `integral = 0` and `prev_error = 0`, because a
non-no-op `heater_on` always runs `pid_reset()`. -/
theorem pid_reset_round_trip (cfg : Config) (s : Sys) (sp sp2 : ℚ)
    (code : HeaterCode) :
    (heater_on cfg sp2
      (heater_off cfg HState.HEATER_OFF code (heater_on cfg sp s))).pid.integral = 0 ∧
    (heater_on cfg sp2
      (heater_off cfg HState.HEATER_OFF code (heater_on cfg sp s))).pid.prev_error = 0 := by
  constructor <;> rfl

/-- C3 counterexample: with the heater latched in `HEATER_SHUTDOWN`,
`heater_on(140)` is not blocked — it starts a new heating cycle
(`state` becomes `HEATER_HEATING`), contradicting "turn_on(setpoint) called
while in Shutdown does not start a new heating cycle". -/
theorem heater_on_exits_shutdown_cex :
    sysShutdown.heater.state = HState.HEATER_SHUTDOWN ∧
    (heater_on cfg0 140 sysShutdown).heater.state = HState.HEATER_HEATING := by
  constructor <;> rfl

/-- C3 (amended): once the heater is in `HEATER_SHUTDOWN`, the poll routine
(`heater_callback`) leaves the whole system unchanged — the poll never exits
Shutdown automatically — but `heater_on` is only a no-op in
`HEATER_HEATING`/`HEATER_AT_TARGET`, so `heater_on(setpoint)` called in
Shutdown does start a new heating cycle (`state` becomes `HEATER_HEATING`);
besides `heater_init`, `heater_on` and `heater_off` both exit Shutdown. -/
theorem shutdown_exited_only_by_commands (cfg : Config) (s : Sys) (sp : ℚ)
    (h : s.heater.state = HState.HEATER_SHUTDOWN) :
    heater_callback cfg s = s ∧
    (heater_on cfg sp s).heater.state = HState.HEATER_HEATING := by
  constructor
  · simp [heater_callback, h]
  · simp [heater_on, h]

/-- Closed witness for `shutdown_exited_only_by_commands` at `sysShutdown`. -/
theorem shutdown_exited_only_by_commands_witness :
    sysShutdown.heater.state = HState.HEATER_SHUTDOWN ∧
    heater_callback cfg0 sysShutdown = sysShutdown ∧
    (heater_on cfg0 140 sysShutdown).heater.state = HState.HEATER_HEATING := by
  have h := shutdown_exited_only_by_commands cfg0 sysShutdown 140 rfl
  exact ⟨rfl, h.1, h.2⟩

/-- C4 counterexample: from `HEATER_OFF` with `regulation_timer = 5` and the
sensor previously switched off, `heater_on(140)` leaves
`heater.regulation_timer` at `5` (not zero) and the sensor still
`SENSOR_OFF` (the `sensor_on()` hook has an empty body), contradicting
"zeroes the elapsed-since-start timer". -/
theorem heater_on_timer_not_zeroed_cex :
    sysC4.heater.state = HState.HEATER_OFF ∧
    sysC4.heater.regulation_timer = 5 ∧
    (heater_on cfg0 140 sysC4).heater.regulation_timer = 5 ∧
    (heater_on cfg0 140 sysC4).heater.regulation_timer ≠ 0 ∧
    (heater_on cfg0 140 sysC4).sensor.state = SensorState.SENSOR_OFF := by
  refine ⟨rfl, rfl, rfl, ?_, rfl⟩
  intro h
  have : (5 : ℚ) = 0 := h
  norm_num at this

/-- C4 (amended): `heater_on(setpoint)` is a no-op when already
`HEATER_HEATING`/`HEATER_AT_TARGET`; otherwise it calls the (empty) sensor
enable hook — leaving the sensor state unchanged — resets the PID, enables
actuator output via `pwm_on(PWM_FREQUENCY, 0)` (duty to be computed
per-cycle), sets the setpoint and `mode = HEATER_HEATING`, and leaves
`heater.regulation_timer` unchanged: the elapsed timer is zeroed only by
`heater_init`, so the fault timeouts of a new cycle continue from previously
accumulated time. -/
theorem heater_on_spec_amended (cfg : Config) (s : Sys) (sp : ℚ) :
    ((s.heater.state = HState.HEATER_HEATING ∨
      s.heater.state = HState.HEATER_AT_TARGET) → heater_on cfg sp s = s) ∧
    (¬(s.heater.state = HState.HEATER_HEATING ∨
       s.heater.state = HState.HEATER_AT_TARGET) →
      heater_on cfg sp s =
        { s with
          sensor := s.sensor
          pid := pid_reset s.pid
          device := pwm_on cfg s.device cfg.PWM_FREQUENCY 0
          heater := { s.heater with setpoint := sp,
                                    state := HState.HEATER_HEATING } } ∧
      (heater_on cfg sp s).heater.regulation_timer = s.heater.regulation_timer ∧
      (heater_on cfg sp s).sensor = s.sensor ∧
      (heater_on cfg sp s).pid.integral = 0 ∧
      (heater_on cfg sp s).pid.prev_error = 0) := by
  constructor
  · intro h
    simp [heater_on, h]
  · intro h
    refine ⟨?_, ?_, ?_, ?_, ?_⟩ <;> simp [heater_on, h, sensor_on, pid_reset]

/-- Closed witness for `heater_on_spec_amended` at `sysC4` (state
`HEATER_OFF`, so the active branch applies) and at a heating state (no-op
branch). -/
theorem heater_on_spec_amended_witness :
    (heater_on cfg0 140 sysC4).heater.regulation_timer =
      sysC4.heater.regulation_timer ∧
    (heater_on cfg0 140 sysC4).pid.integral = 0 ∧
    heater_on cfg0 150 (heater_on cfg0 140 sysC4) = heater_on cfg0 140 sysC4 := by
  have hno : ¬(sysC4.heater.state = HState.HEATER_HEATING ∨
      sysC4.heater.state = HState.HEATER_AT_TARGET) := by
    intro h
    cases h with
    | inl h => exact absurd h (by intro hc; cases hc)
    | inr h => exact absurd h (by intro hc; cases hc)
  have h1 := (heater_on_spec_amended cfg0 sysC4 140).2 hno
  have h2 := (heater_on_spec_amended cfg0 (heater_on cfg0 140 sysC4) 150).1
  exact ⟨h1.2.1, h1.2.2.2.1, h2 (Or.inl rfl)⟩

/-- `heater_on` either leaves the heater state alone (the no-op branch) or
sets `HEATER_HEATING`. -/
theorem heater_on_state_cases (cfg : Config) (sp : ℚ) (s : Sys) :
    (heater_on cfg sp s).heater.state = s.heater.state ∨
    (heater_on cfg sp s).heater.state = HState.HEATER_HEATING := by
  unfold heater_on
  split_ifs
  · exact Or.inl rfl
  · exact Or.inr rfl

/-- `heater_callback` either leaves the heater state alone or sets
`HEATER_SHUTDOWN` (via `heater_off` on a timeout). -/
theorem heater_callback_state_cases (cfg : Config) (s : Sys) :
    (heater_callback cfg s).heater.state = s.heater.state ∨
    (heater_callback cfg s).heater.state = HState.HEATER_SHUTDOWN := by
  unfold heater_callback
  dsimp only
  split_ifs <;> first | exact Or.inl rfl | exact Or.inr rfl

/-- C10: starting from `heater_init`, every sequence of heater operations
(`heater_init`, `heater_on`, `heater_off` with the targets the program uses,
`heater_callback`) keeps the heater state in
`{HEATER_OFF, HEATER_HEATING, HEATER_SHUTDOWN}` — no operation ever assigns
`HEATER_AT_TARGET`, so the AtTarget state is unreachable. -/
theorem heater_at_target_unreachable (cfg : Config) (s : Sys)
    (ops : List HeaterOp) :
    (ops.foldl (applyHeaterOp cfg) (heater_init cfg s)).heater.state =
        HState.HEATER_OFF ∨
    (ops.foldl (applyHeaterOp cfg) (heater_init cfg s)).heater.state =
        HState.HEATER_HEATING ∨
    (ops.foldl (applyHeaterOp cfg) (heater_init cfg s)).heater.state =
        HState.HEATER_SHUTDOWN := by
  have step : ∀ (t : Sys) (op : HeaterOp),
      t.heater.state ≠ HState.HEATER_AT_TARGET →
      (applyHeaterOp cfg t op).heater.state ≠ HState.HEATER_AT_TARGET := by
    intro t op ht
    cases op with
    | hinit =>
      simp only [applyHeaterOp, heater_init]
      intro hc; cases hc
    | hon sp =>
      simp only [applyHeaterOp]
      rcases heater_on_state_cases cfg sp t with h | h <;> rw [h]
      · exact ht
      · intro hc; cases hc
    | hoff_off code =>
      simp only [applyHeaterOp, heater_off]
      intro hc; cases hc
    | hoff_shutdown code =>
      simp only [applyHeaterOp, heater_off]
      intro hc; cases hc
    | hpoll =>
      simp only [applyHeaterOp]
      rcases heater_callback_state_cases cfg t with h | h <;> rw [h]
      · exact ht
      · intro hc; cases hc
  have inv : ∀ (l : List HeaterOp) (t : Sys),
      t.heater.state ≠ HState.HEATER_AT_TARGET →
      (l.foldl (applyHeaterOp cfg) t).heater.state ≠ HState.HEATER_AT_TARGET := by
    intro l
    induction l with
    | nil => intro t ht; exact ht
    | cons op l ih => intro t ht; exact ih _ (step t op ht)
  have h0 : (heater_init cfg s).heater.state ≠ HState.HEATER_AT_TARGET := by
    intro hc; cases hc
  have h := inv ops (heater_init cfg s) h0
  cases hs : (ops.foldl (applyHeaterOp cfg) (heater_init cfg s)).heater.state with
  | HEATER_OFF => exact Or.inl rfl
  | HEATER_HEATING => exact Or.inr (Or.inl rfl)
  | HEATER_AT_TARGET => exact absurd hs h
  | HEATER_SHUTDOWN => exact Or.inr (Or.inr rfl)

/-- `toUint8` never exceeds 255. -/
theorem toUint8_le_255 (q : ℚ) : toUint8 q ≤ 255 := by
  unfold toUint8
  omega

/-- `toUint8` is monotone on `[0, 255]`. -/
theorem toUint8_mono (a b : ℚ) (h0 : 0 ≤ a) (hb : b ≤ 255) (hab : a ≤ b) :
    toUint8 a ≤ toUint8 b := by
  unfold toUint8
  have hfa : ⌊a⌋ ≤ ⌊b⌋ := Int.floor_le_floor hab
  have ha0 : 0 ≤ ⌊a⌋ := Int.floor_nonneg.mpr h0
  have hb255 : ⌊b⌋ ≤ 255 := by
    have h := Int.floor_le_floor hb
    simpa using h
  omega

/-- The `duty ≤ 0` branch of `pwm_set_duty` writes `OCR2B = 255`. -/
theorem pwm_set_duty_OCR2B_of_nonpos (d : Device) (duty : ℚ) (h : duty ≤ 0) :
    (pwm_set_duty d duty).OCR2B = 255 := by
  simp [pwm_set_duty, h]

/-- The `duty > 100` branch of `pwm_set_duty` writes `OCR2B = 0`. -/
theorem pwm_set_duty_OCR2B_of_gt100 (d : Device) (duty : ℚ) (h0 : ¬ duty ≤ 0)
    (h : duty > 100) : (pwm_set_duty d duty).OCR2B = 0 := by
  simp [pwm_set_duty, h0, h]

/-- The in-range branch of `pwm_set_duty` scales the TOP value. -/
theorem pwm_set_duty_OCR2B_of_mid (d : Device) (duty : ℚ) (h0 : ¬ duty ≤ 0)
    (h : ¬ duty > 100) :
    (pwm_set_duty d duty).OCR2B = toUint8 ((d.OCR2A : ℚ) * (1 - duty / 100)) := by
  simp [pwm_set_duty, h0, h]

/-- `OCR2B` stays within the 8-bit range on every branch. -/
theorem pwm_set_duty_OCR2B_le (d : Device) (duty : ℚ) :
    (pwm_set_duty d duty).OCR2B ≤ 255 := by
  rcases le_or_lt duty 0 with h | h
  · rw [pwm_set_duty_OCR2B_of_nonpos d duty h]
  · rcases lt_or_le 100 duty with hg | hg
    · rw [pwm_set_duty_OCR2B_of_gt100 d duty (not_le.mpr h) hg]
      exact Nat.zero_le _
    · rw [pwm_set_duty_OCR2B_of_mid d duty (not_le.mpr h) (not_lt.mpr hg)]
      exact toUint8_le_255 _

/-- `OCR2B` is antitone in the requested duty (for a TOP value in range). -/
theorem pwm_set_duty_OCR2B_antitone (d : Device) (h255 : d.OCR2A ≤ 255)
    (d1 d2 : ℚ) (hle : d1 ≤ d2) :
    (pwm_set_duty d d2).OCR2B ≤ (pwm_set_duty d d1).OCR2B := by
  rcases le_or_lt d1 0 with h1 | h1
  · rw [pwm_set_duty_OCR2B_of_nonpos d d1 h1]
    exact pwm_set_duty_OCR2B_le d d2
  · have h1n : ¬ d1 ≤ 0 := not_le.mpr h1
    have h2 : (0 : ℚ) < d2 := lt_of_lt_of_le h1 hle
    have h2n : ¬ d2 ≤ 0 := not_le.mpr h2
    rcases lt_or_le 100 d1 with hg1 | hg1
    · have hg2 : (100 : ℚ) < d2 := lt_of_lt_of_le hg1 hle
      rw [pwm_set_duty_OCR2B_of_gt100 d d1 h1n hg1,
          pwm_set_duty_OCR2B_of_gt100 d d2 h2n hg2]
    · rcases lt_or_le 100 d2 with hg2 | hg2
      · rw [pwm_set_duty_OCR2B_of_gt100 d d2 h2n hg2]
        exact Nat.zero_le _
      · rw [pwm_set_duty_OCR2B_of_mid d d1 h1n (not_lt.mpr hg1),
            pwm_set_duty_OCR2B_of_mid d d2 h2n (not_lt.mpr hg2)]
        have hA0 : (0 : ℚ) ≤ (d.OCR2A : ℚ) := by positivity
        apply toUint8_mono
        · apply mul_nonneg hA0
          have : d2 / 100 ≤ 1 := by linarith
          linarith
        · have hfac : 1 - d1 / 100 ≤ 1 := by
            have : 0 < d1 / 100 := by positivity
            linarith
          calc (d.OCR2A : ℚ) * (1 - d1 / 100) ≤ (d.OCR2A : ℚ) * 1 :=
                mul_le_mul_of_nonneg_left hfac hA0
            _ = (d.OCR2A : ℚ) := mul_one _
            _ ≤ 255 := by exact_mod_cast h255
        · apply mul_le_mul_of_nonneg_left _ hA0
          have : d1 / 100 ≤ d2 / 100 := by linarith
          linarith

/-- C8 counterexample: with the concrete device `dev0`, `duty = 101` writes
`OCR2B = 0` — the same register value as `duty = 100`, which is the fully-on
output — whereas the fully-off output (the one `duty = 0` produces) is
`OCR2B = 255`; its on-time equals the fully-on one and differs from the
fully-off one, contradicting "every duty>100 also yields the fully-off
output". -/
theorem pwm_duty_over100_cex :
    (pwm_set_duty dev0 101).OCR2B = 0 ∧
    (pwm_set_duty dev0 100).OCR2B = 0 ∧
    (pwm_set_duty dev0 0).OCR2B = 255 ∧
    pwm_on_time (pwm_set_duty dev0 101) = pwm_on_time (pwm_set_duty dev0 100) ∧
    pwm_on_time (pwm_set_duty dev0 101) ≠ pwm_on_time (pwm_set_duty dev0 0) := by
  have h101 : (pwm_set_duty dev0 101).OCR2B = 0 := rfl
  have h100 : (pwm_set_duty dev0 100).OCR2B = 0 := by
    rw [pwm_set_duty_OCR2B_of_mid dev0 100 (by norm_num) (by norm_num)]
    have hz : ((dev0.OCR2A : ℚ) * (1 - 100 / 100)) = 0 := by norm_num
    rw [hz]
    simp [toUint8]
  have h0 : (pwm_set_duty dev0 0).OCR2B = 255 := rfl
  refine ⟨h101, h100, h0, ?_, ?_⟩
  · unfold pwm_on_time
    rw [h101, h100]
  · unfold pwm_on_time
    rw [h101, h0]
    decide

/-- C8 (amended): over all duty inputs the underlying on-time is monotone —
non-increasing as the requested duty decreases; `duty = 0` yields the
fully-off output (`OCR2B = 255`), `duty = 100` yields the fully-on output
(`OCR2B = 0`), and every `duty > 100` is clamped to the fully-ON output
(`OCR2B = 0`, the same as `duty = 100`), not the fully-off one. -/
theorem pwm_set_duty_monotone_amended (d : Device) (h255 : d.OCR2A ≤ 255) :
    (pwm_set_duty d 0).OCR2B = 255 ∧
    (pwm_set_duty d 100).OCR2B = 0 ∧
    (∀ duty : ℚ, duty > 100 → (pwm_set_duty d duty).OCR2B = 0) ∧
    (∀ d1 d2 : ℚ, d1 ≤ d2 →
      pwm_on_time (pwm_set_duty d d1) ≤ pwm_on_time (pwm_set_duty d d2)) := by
  refine ⟨?_, ?_, ?_, ?_⟩
  · exact pwm_set_duty_OCR2B_of_nonpos d 0 (le_refl 0)
  · rw [pwm_set_duty_OCR2B_of_mid d 100 (by norm_num) (by norm_num)]
    norm_num [toUint8]
  · intro duty h
    exact pwm_set_duty_OCR2B_of_gt100 d duty (by linarith) h
  · intro d1 d2 hle
    unfold pwm_on_time
    exact Nat.sub_le_sub_left (pwm_set_duty_OCR2B_antitone d h255 d1 d2 hle) 255

/-- Closed witness for `pwm_set_duty_monotone_amended` at `dev0`
(`OCR2A = 212 ≤ 255`), with duties `30 ≤ 60`. -/
theorem pwm_set_duty_monotone_amended_witness :
    dev0.OCR2A ≤ 255 ∧
    (pwm_set_duty dev0 0).OCR2B = 255 ∧
    pwm_on_time (pwm_set_duty dev0 30) ≤ pwm_on_time (pwm_set_duty dev0 60) := by
  have h255 : dev0.OCR2A ≤ 255 := by decide
  have h := pwm_set_duty_monotone_amended dev0 h255
  exact ⟨h255, h.1, h.2.2.2 30 60 (by norm_num)⟩

/-- First poll of a reading (`samples == 0`): the sample is recorded
unconditionally as the variance reference and accumulated. -/
theorem sensor_callback_first (cfg : Config) (adc : ℕ → ℕ)
    (sn : TemperatureSensor) (k : ℕ)
    (h1 : sn.state ≠ SensorState.SENSOR_OFF)
    (h2 : sn.state ≠ SensorState.SENSOR_SHUTDOWN)
    (hcode : sn.code ≠ SensorCode.SENSOR_READING_COMPLETE)
    (hs : sn.samples = 0)
    (hsun : SAMPLE cfg adc k ≤ cfg.SURFACE_OF_THE_SUN) :
    sensor_callback cfg adc sn k =
      (let t3 : TemperatureSensor :=
        { sn with samples := 1, accumulator := SAMPLE cfg adc k,
                  previous_temp := SAMPLE cfg adc k,
                  code := SensorCode.SENSOR_IS_READING }
       if t3.samples < t3.samples_per_reading then (t3, k + 1)
       else (classifySensor cfg t3, k + 1)) := by
  have hg : ¬ (sn.state = SensorState.SENSOR_OFF ∨
      sn.state = SensorState.SENSOR_SHUTDOWN) := by
    rintro (h | h)
    · exact h1 h
    · exact h2 h
  have hsn : ¬ (SAMPLE cfg adc k > cfg.SURFACE_OF_THE_SUN) := not_lt.mpr hsun
  simp only [sensor_callback, sensor_sample, if_neg hg, if_neg hcode, hs,
    decide_True, ite_true, ite_self, if_neg hsn, zero_add]

/-- A non-first poll whose sample is accepted on the first try: the sample is
within the variance range of `previous_temp`, so it is accumulated and
`previous_temp` moves to it. -/
theorem sensor_callback_accept (cfg : Config) (adc : ℕ → ℕ)
    (t : TemperatureSensor) (c : ℕ)
    (h1 : t.state ≠ SensorState.SENSOR_OFF)
    (h2 : t.state ≠ SensorState.SENSOR_SHUTDOWN)
    (hcode : t.code ≠ SensorCode.SENSOR_READING_COMPLETE)
    (hs : t.samples ≠ 0)
    (hret : 0 < t.retries)
    (hvar : |SAMPLE cfg adc c - t.previous_temp| < t.variance)
    (hsun : SAMPLE cfg adc c ≤ cfg.SURFACE_OF_THE_SUN) :
    sensor_callback cfg adc t c =
      (let t3 : TemperatureSensor :=
        { t with previous_temp := SAMPLE cfg adc c,
                 accumulator := t.accumulator + SAMPLE cfg adc c,
                 samples := t.samples + 1 }
       if t3.samples < t3.samples_per_reading then (t3, c + 1)
       else (classifySensor cfg t3, c + 1)) := by
  have hg : ¬ (t.state = SensorState.SENSOR_OFF ∨
      t.state = SensorState.SENSOR_SHUTDOWN) := by
    rintro (h | h)
    · exact h1 h
    · exact h2 h
  obtain ⟨r, hr⟩ : ∃ r, t.retries = r + 1 := ⟨t.retries - 1, by omega⟩
  have hsn : ¬ (SAMPLE cfg adc c > cfg.SURFACE_OF_THE_SUN) := not_lt.mpr hsun
  simp only [sensor_callback, sensor_sample, if_neg hg, if_neg hcode,
    if_neg hs, hr, sensorRetry, if_pos hvar, ite_self, if_neg hsn]

/-- Field-level description of `classifySensor`: the recorded temperature is
the mean, and the code/state pair follows the two thresholds. -/
theorem classifySensor_spec (cfg : Config) (t : TemperatureSensor) :
    (classifySensor cfg t).temperature = t.accumulator / (t.samples : ℚ) ∧
    (classifySensor cfg t).samples = t.samples ∧
    (t.accumulator / (t.samples : ℚ) > cfg.SENSOR_DISCONNECTED_TEMPERATURE →
      (classifySensor cfg t).code = SensorCode.SENSOR_READING_FAILED_DISCONNECTED ∧
      (classifySensor cfg t).state = SensorState.SENSOR_HAS_NO_DATA) ∧
    (¬ t.accumulator / (t.samples : ℚ) > cfg.SENSOR_DISCONNECTED_TEMPERATURE →
      t.accumulator / (t.samples : ℚ) < cfg.SENSOR_NO_POWER_TEMPERATURE →
      (classifySensor cfg t).code = SensorCode.SENSOR_READING_FAILED_NO_POWER ∧
      (classifySensor cfg t).state = SensorState.SENSOR_HAS_NO_DATA) ∧
    (¬ t.accumulator / (t.samples : ℚ) > cfg.SENSOR_DISCONNECTED_TEMPERATURE →
      ¬ t.accumulator / (t.samples : ℚ) < cfg.SENSOR_NO_POWER_TEMPERATURE →
      (classifySensor cfg t).code = SensorCode.SENSOR_READING_COMPLETE ∧
      (classifySensor cfg t).state = SensorState.SENSOR_HAS_DATA) := by
  unfold classifySensor
  dsimp only
  split_ifs with hd hn
  · exact ⟨rfl, rfl, fun _ => ⟨rfl, rfl⟩, fun hnd _ => absurd hd hnd,
      fun hnd _ => absurd hd hnd⟩
  · exact ⟨rfl, rfl, fun h => absurd h hd, fun _ _ => ⟨rfl, rfl⟩,
      fun _ hnn => absurd hn hnn⟩
  · exact ⟨rfl, rfl, fun h => absurd h hd, fun _ h => absurd h hn,
      fun _ _ => ⟨rfl, rfl⟩⟩

/-- In-variance polls keep the sensor mid-reading: after `m < samples_per_reading`
polls (each sample accepted on the first try) the sensor is `midSensor m` and
`m` conversions are consumed. -/
theorem sensorPolls_mid (cfg : Config) (adc : ℕ → ℕ) (k : ℕ)
    (sn : TemperatureSensor)
    (h1 : sn.state ≠ SensorState.SENSOR_OFF)
    (h2 : sn.state ≠ SensorState.SENSOR_SHUTDOWN)
    (hcode : sn.code ≠ SensorCode.SENSOR_READING_COMPLETE)
    (hs : sn.samples = 0)
    (hret : 0 < sn.retries)
    (hvar : ∀ j, j + 1 < sn.samples_per_reading →
      |SAMPLE cfg adc (k + j + 1) - SAMPLE cfg adc (k + j)| < sn.variance)
    (hsun : ∀ j, j < sn.samples_per_reading →
      SAMPLE cfg adc (k + j) ≤ cfg.SURFACE_OF_THE_SUN) :
    ∀ m, 0 < m → m < sn.samples_per_reading →
      sensorPolls cfg adc m (sn, k) = (midSensor cfg adc k sn m, k + m) := by
  intro m
  induction m with
  | zero => intro h; exact absurd h (lt_irrefl 0)
  | succ p ih =>
    intro _ hlt
    rcases Nat.eq_zero_or_pos p with hp | hp
    · subst hp
      have hs0 := hsun 0 (by omega)
      rw [Nat.add_zero] at hs0
      simp only [sensorPolls]
      rw [sensor_callback_first cfg adc sn k h1 h2 hcode hs hs0]
      dsimp only
      rw [if_pos (show (1 : ℕ) < sn.samples_per_reading from hlt)]
      simp only [midSensor, zero_add, Finset.sum_range_one, Nat.add_zero,
        Nat.add_sub_cancel, Prod.mk.injEq, and_true]
    · have hmlt : p < sn.samples_per_reading := by omega
      have hih := ih hp hmlt
      simp only [sensorPolls, hih]
      have e1 : k + (p - 1) + 1 = k + p := by omega
      have e2 : k + (p - 1) = k + p - 1 := by omega
      have hv := hvar (p - 1) (by omega)
      rw [e1, e2] at hv
      rw [sensor_callback_accept cfg adc (midSensor cfg adc k sn p) (k + p) h1 h2
        (by intro hc; cases hc) (by show p ≠ 0; omega) hret hv (hsun p hmlt)]
      dsimp only [midSensor]
      rw [if_pos (show p + 1 < sn.samples_per_reading from hlt)]
      simp [midSensor, Finset.sum_range_succ, Nat.add_sub_cancel, Nat.add_assoc]

/-- C5: starting a reading (`samples = 0`) and feeding raw samples that are
each within the variance range of the previously accepted sample (and are
genuine readings, i.e. not above the `SURFACE_OF_THE_SUN` sentinel), the
reading is in progress (`SENSOR_IS_READING`, state unchanged) for every poll
before the `samples_per_reading`-th and completes at exactly the
`samples_per_reading`-th poll; the filtered temperature is the arithmetic
mean of the accepted samples, and the completed reading is classified: mean
above the disconnect threshold gives the "disconnected" fault in the dataless
`SENSOR_HAS_NO_DATA` state, mean below the no-power threshold the "no power"
fault in the dataless state, otherwise `SENSOR_HAS_DATA` with the mean as the
sensor temperature. -/
theorem sensor_reading_completes (cfg : Config) (adc : ℕ → ℕ) (k : ℕ)
    (sn : TemperatureSensor)
    (h1 : sn.state ≠ SensorState.SENSOR_OFF)
    (h2 : sn.state ≠ SensorState.SENSOR_SHUTDOWN)
    (hcode : sn.code ≠ SensorCode.SENSOR_READING_COMPLETE)
    (hs : sn.samples = 0)
    (hN : 0 < sn.samples_per_reading)
    (hret : 0 < sn.retries)
    (hvar : ∀ j, j + 1 < sn.samples_per_reading →
      |SAMPLE cfg adc (k + j + 1) - SAMPLE cfg adc (k + j)| < sn.variance)
    (hsun : ∀ j, j < sn.samples_per_reading →
      SAMPLE cfg adc (k + j) ≤ cfg.SURFACE_OF_THE_SUN) :
    (∀ m, 0 < m → m < sn.samples_per_reading →
      (sensorPolls cfg adc m (sn, k)).1.code = SensorCode.SENSOR_IS_READING ∧
      (sensorPolls cfg adc m (sn, k)).1.state = sn.state) ∧
    (sensorPolls cfg adc sn.samples_per_reading (sn, k)).2 =
      k + sn.samples_per_reading ∧
    (sensorPolls cfg adc sn.samples_per_reading (sn, k)).1.temperature =
      (∑ j ∈ Finset.range sn.samples_per_reading, SAMPLE cfg adc (k + j)) /
        (sn.samples_per_reading : ℚ) ∧
    ((∑ j ∈ Finset.range sn.samples_per_reading, SAMPLE cfg adc (k + j)) /
        (sn.samples_per_reading : ℚ) > cfg.SENSOR_DISCONNECTED_TEMPERATURE →
      (sensorPolls cfg adc sn.samples_per_reading (sn, k)).1.code =
        SensorCode.SENSOR_READING_FAILED_DISCONNECTED ∧
      (sensorPolls cfg adc sn.samples_per_reading (sn, k)).1.state =
        SensorState.SENSOR_HAS_NO_DATA) ∧
    (¬ (∑ j ∈ Finset.range sn.samples_per_reading, SAMPLE cfg adc (k + j)) /
        (sn.samples_per_reading : ℚ) > cfg.SENSOR_DISCONNECTED_TEMPERATURE →
      (∑ j ∈ Finset.range sn.samples_per_reading, SAMPLE cfg adc (k + j)) /
        (sn.samples_per_reading : ℚ) < cfg.SENSOR_NO_POWER_TEMPERATURE →
      (sensorPolls cfg adc sn.samples_per_reading (sn, k)).1.code =
        SensorCode.SENSOR_READING_FAILED_NO_POWER ∧
      (sensorPolls cfg adc sn.samples_per_reading (sn, k)).1.state =
        SensorState.SENSOR_HAS_NO_DATA) ∧
    (¬ (∑ j ∈ Finset.range sn.samples_per_reading, SAMPLE cfg adc (k + j)) /
        (sn.samples_per_reading : ℚ) > cfg.SENSOR_DISCONNECTED_TEMPERATURE →
      ¬ (∑ j ∈ Finset.range sn.samples_per_reading, SAMPLE cfg adc (k + j)) /
        (sn.samples_per_reading : ℚ) < cfg.SENSOR_NO_POWER_TEMPERATURE →
      (sensorPolls cfg adc sn.samples_per_reading (sn, k)).1.code =
        SensorCode.SENSOR_READING_COMPLETE ∧
      (sensorPolls cfg adc sn.samples_per_reading (sn, k)).1.state =
        SensorState.SENSOR_HAS_DATA) := by
  have hmid := sensorPolls_mid cfg adc k sn h1 h2 hcode hs hret hvar hsun
  have hfin : sensorPolls cfg adc sn.samples_per_reading (sn, k) =
      (classifySensor cfg (midSensor cfg adc k sn sn.samples_per_reading),
       k + sn.samples_per_reading) := by
    obtain ⟨M, hM⟩ : ∃ M, sn.samples_per_reading = M + 1 :=
      ⟨sn.samples_per_reading - 1, by omega⟩
    rcases Nat.eq_zero_or_pos M with hM0 | hMpos
    · subst hM0
      have hs0 := hsun 0 (by omega)
      rw [Nat.add_zero] at hs0
      rw [hM]
      simp only [sensorPolls]
      rw [sensor_callback_first cfg adc sn k h1 h2 hcode hs hs0]
      dsimp only
      rw [if_neg (show ¬ (1 : ℕ) < sn.samples_per_reading by omega)]
      simp only [Prod.mk.injEq, zero_add]
      constructor
      · congr 1
        simp only [midSensor, zero_add, Finset.sum_range_one, Nat.add_zero,
          Nat.add_sub_cancel, hM]
      · trivial
    · have hMlt : M < sn.samples_per_reading := by omega
      have hmm := hmid M hMpos hMlt
      rw [hM]
      simp only [sensorPolls]
      rw [hmm]
      have e1 : k + (M - 1) + 1 = k + M := by omega
      have e2 : k + (M - 1) = k + M - 1 := by omega
      have hv := hvar (M - 1) (by omega)
      rw [e1, e2] at hv
      rw [sensor_callback_accept cfg adc (midSensor cfg adc k sn M) (k + M) h1 h2
        (by intro hc; cases hc) (by show M ≠ 0; omega) hret hv (hsun M hMlt)]
      dsimp only [midSensor]
      rw [if_neg (show ¬ M + 1 < sn.samples_per_reading by omega)]
      simp only [Prod.mk.injEq]
      have e3 : k + (M + 1) - 1 = k + M := by omega
      constructor
      · congr 1
        simp only [midSensor, Finset.sum_range_succ, Nat.add_sub_cancel, hM, e3]
      · omega
  have hc := classifySensor_spec cfg (midSensor cfg adc k sn sn.samples_per_reading)
  refine ⟨?_, ?_, ?_, ?_, ?_, ?_⟩
  · intro m hm hmN
    rw [hmid m hm hmN]
    exact ⟨rfl, rfl⟩
  · rw [hfin]
  · rw [hfin]
    exact hc.1
  · intro h
    rw [hfin]
    exact hc.2.2.1 h
  · intro hnd hn
    rw [hfin]
    exact hc.2.2.2.1 hnd hn
  · intro hnd hnn
    rw [hfin]
    exact hc.2.2.2.2 hnd hnn

/-- Closed witness for `sensor_reading_completes`: the freshly initialized
sensor (8 samples per reading, 4 retries, variance 20) fed the constant
in-range stream `adcConst`. -/
theorem sensor_reading_completes_witness :
    (sensor_init cfg0).samples = 0 ∧
    0 < (sensor_init cfg0).samples_per_reading ∧
    (sensorPolls cfg0 adcConst (sensor_init cfg0).samples_per_reading
      (sensor_init cfg0, 0)).2 = 0 + (sensor_init cfg0).samples_per_reading ∧
    (sensorPolls cfg0 adcConst (sensor_init cfg0).samples_per_reading
      (sensor_init cfg0, 0)).1.temperature =
      (∑ j ∈ Finset.range (sensor_init cfg0).samples_per_reading,
        SAMPLE cfg0 adcConst (0 + j)) /
        ((sensor_init cfg0).samples_per_reading : ℚ) := by
  have h1 : (sensor_init cfg0).state ≠ SensorState.SENSOR_OFF := by
    intro hc; cases hc
  have h2 : (sensor_init cfg0).state ≠ SensorState.SENSOR_SHUTDOWN := by
    intro hc; cases hc
  have hcode : (sensor_init cfg0).code ≠ SensorCode.SENSOR_READING_COMPLETE := by
    intro hc; cases hc
  have hN : 0 < (sensor_init cfg0).samples_per_reading := by
    show (0 : ℕ) < 8
    norm_num
  have hret : 0 < (sensor_init cfg0).retries := by
    show (0 : ℕ) < 4
    norm_num
  have hvar : ∀ j, j + 1 < (sensor_init cfg0).samples_per_reading →
      |SAMPLE cfg0 adcConst (0 + j + 1) - SAMPLE cfg0 adcConst (0 + j)| <
        (sensor_init cfg0).variance := by
    intro j _
    simp only [SAMPLE, adcConst, sub_self, abs_zero]
    show (0 : ℚ) < 20
    norm_num
  have hsun : ∀ j, j < (sensor_init cfg0).samples_per_reading →
      SAMPLE cfg0 adcConst (0 + j) ≤ cfg0.SURFACE_OF_THE_SUN := by
    intro j _
    show ((250 : ℕ) : ℚ) * (7/5) + (-120) ≤ 5505
    norm_num
  have h := sensor_reading_completes cfg0 adcConst 0 (sensor_init cfg0)
    h1 h2 hcode rfl hN hret hvar hsun
  exact ⟨rfl, hN, h.2.1, h.2.2.1⟩

/-- The retry loop of `_sensor_sample`, its variance tests all failing,
consumes one conversion per iteration and returns the `HOTTER_THAN_THE_SUN`
sentinel with `previous_temp` untouched. -/
theorem sensorRetry_exhausts (cfg : Config) (adc : ℕ → ℕ) (prev var : ℚ) :
    ∀ (R c : ℕ) (sample : ℚ),
      ¬ |sample - prev| < var →
      (∀ j, j < R → ¬ |SAMPLE cfg adc (c + j) - prev| < var) →
      sensorRetry cfg adc prev var sample c R =
        (cfg.HOTTER_THAN_THE_SUN, c + R, prev) := by
  intro R
  induction R with
  | zero => intro c sample _ _; simp [sensorRetry]
  | succ i ih =>
    intro c sample h1 h2
    simp only [sensorRetry, if_neg h1]
    have hnext : ¬ |SAMPLE cfg adc c - prev| < var := by
      have h := h2 0 (by omega)
      rwa [Nat.add_zero] at h
    have hrest : ∀ j, j < i → ¬ |SAMPLE cfg adc (c + 1 + j) - prev| < var := by
      intro j hj
      have h := h2 (j + 1) (by omega)
      rwa [show c + (j + 1) = c + 1 + j by omega] at h
    rw [ih (c + 1) (SAMPLE cfg adc c) hnext hrest]
    simp only [Prod.mk.injEq, true_and, and_true]
    omega

/-- A mid-reading poll all of whose variance retries fail latches the sensor
in `SENSOR_SHUTDOWN` with the bad-readings fault code. -/
theorem sensor_callback_exhaust (cfg : Config) (adc : ℕ → ℕ)
    (sn : TemperatureSensor) (k : ℕ)
    (h1 : sn.state ≠ SensorState.SENSOR_OFF)
    (h2 : sn.state ≠ SensorState.SENSOR_SHUTDOWN)
    (hcode : sn.code ≠ SensorCode.SENSOR_READING_COMPLETE)
    (hs : sn.samples ≠ 0)
    (hSun : cfg.SURFACE_OF_THE_SUN < cfg.HOTTER_THAN_THE_SUN)
    (hfail : ∀ j, j ≤ sn.retries →
      ¬ |SAMPLE cfg adc (k + j) - sn.previous_temp| < sn.variance) :
    (sensor_callback cfg adc sn k).1.state = SensorState.SENSOR_SHUTDOWN ∧
    (sensor_callback cfg adc sn k).1.code =
      SensorCode.SENSOR_READING_FAILED_BAD_READINGS := by
  have hg : ¬ (sn.state = SensorState.SENSOR_OFF ∨
      sn.state = SensorState.SENSOR_SHUTDOWN) := by
    rintro (h | h)
    · exact h1 h
    · exact h2 h
  have h0 : ¬ |SAMPLE cfg adc k - sn.previous_temp| < sn.variance := by
    have h := hfail 0 (by omega)
    rwa [Nat.add_zero] at h
  have hrest : ∀ j, j < sn.retries →
      ¬ |SAMPLE cfg adc (k + 1 + j) - sn.previous_temp| < sn.variance := by
    intro j hj
    have h := hfail (j + 1) (by omega)
    rwa [show k + (j + 1) = k + 1 + j by omega] at h
  simp only [sensor_callback, sensor_sample, if_neg hg, if_neg hcode,
    decide_eq_true_eq, if_neg hs, ite_self]
  rw [sensorRetry_exhausts cfg adc sn.previous_temp sn.variance sn.retries
    (k + 1) (SAMPLE cfg adc k) h0 hrest]
  rw [if_pos hSun]
  exact ⟨rfl, rfl⟩

/-- With the sensor latched in `SENSOR_SHUTDOWN`, a heater poll only resets
`sensor.samples` and returns before reading a temperature, running the PID,
driving the PWM, or advancing `regulation_timer`. -/
theorem heater_callback_sensor_shutdown (cfg : Config) (s : Sys)
    (hh : s.heater.state = HState.HEATER_HEATING)
    (hsen : s.sensor.state = SensorState.SENSOR_SHUTDOWN) :
    heater_callback cfg s = { s with sensor := { s.sensor with samples := 0 } } := by
  have hg : ¬ (s.heater.state = HState.HEATER_OFF ∨
      s.heater.state = HState.HEATER_SHUTDOWN) := by
    rw [hh]
    rintro (hc | hc) <;> cases hc
  have hns : sensor_get_state (sensor_start_temperature_reading s.sensor) ≠
      SensorState.SENSOR_HAS_DATA := by
    simp [sensor_get_state, sensor_start_temperature_reading, hsen]
  simp only [heater_callback, if_neg hg, if_pos hns]
  rfl

/-- C2: when the Sensor Filter exhausts all its variance retries, it does
latch `SENSOR_SHUTDOWN` with the bad-readings fault code — but this fault is
never surfaced to the Heater: with the heater actively `HEATER_HEATING` and
the sensor in `SENSOR_SHUTDOWN`, every subsequent 100 ms heater poll returns
at the "sensor has no data" guard, so for every number of polls the heater
remains `HEATER_HEATING`, its fault code is unchanged, and the PWM/actuator
registers are untouched (still driving the last duty) — the heater waits
indefinitely instead of reaching a latched Shutdown, contrary to the claim
and to the source comments that the sensor sentinel value "should cause the
heater to shut down". -/
theorem sensor_fault_not_propagated (cfg : Config) (adc : ℕ → ℕ) (s : Sys)
    (k : ℕ)
    (hh : s.heater.state = HState.HEATER_HEATING)
    (h1 : s.sensor.state ≠ SensorState.SENSOR_OFF)
    (h2 : s.sensor.state ≠ SensorState.SENSOR_SHUTDOWN)
    (hcode : s.sensor.code ≠ SensorCode.SENSOR_READING_COMPLETE)
    (hs : s.sensor.samples ≠ 0)
    (hSun : cfg.SURFACE_OF_THE_SUN < cfg.HOTTER_THAN_THE_SUN)
    (hfail : ∀ j, j ≤ s.sensor.retries →
      ¬ |SAMPLE cfg adc (k + j) - s.sensor.previous_temp| < s.sensor.variance) :
    ((sensor_callback cfg adc s.sensor k).1.state = SensorState.SENSOR_SHUTDOWN ∧
     (sensor_callback cfg adc s.sensor k).1.code =
       SensorCode.SENSOR_READING_FAILED_BAD_READINGS) ∧
    (∀ n : ℕ,
      ((heater_callback cfg)^[n]
        { s with sensor := (sensor_callback cfg adc s.sensor k).1 }).heater.state =
          HState.HEATER_HEATING ∧
      ((heater_callback cfg)^[n]
        { s with sensor := (sensor_callback cfg adc s.sensor k).1 }).heater.code =
          s.heater.code ∧
      ((heater_callback cfg)^[n]
        { s with sensor := (sensor_callback cfg adc s.sensor k).1 }).device =
          s.device) := by
  have hx := sensor_callback_exhaust cfg adc s.sensor k h1 h2 hcode hs hSun hfail
  refine ⟨hx, ?_⟩
  have key : ∀ n : ℕ,
      ((heater_callback cfg)^[n]
        { s with sensor := (sensor_callback cfg adc s.sensor k).1 }).heater.state =
          HState.HEATER_HEATING ∧
      ((heater_callback cfg)^[n]
        { s with sensor := (sensor_callback cfg adc s.sensor k).1 }).heater.code =
          s.heater.code ∧
      ((heater_callback cfg)^[n]
        { s with sensor := (sensor_callback cfg adc s.sensor k).1 }).device =
          s.device ∧
      ((heater_callback cfg)^[n]
        { s with sensor := (sensor_callback cfg adc s.sensor k).1 }).sensor.state =
          SensorState.SENSOR_SHUTDOWN := by
    intro n
    induction n with
    | zero => exact ⟨hh, rfl, rfl, hx.1⟩
    | succ n ih =>
      rw [Function.iterate_succ_apply',
        heater_callback_sensor_shutdown cfg _ ih.1 ih.2.2.2]
      exact ⟨ih.1, ih.2.1, ih.2.2.1, ih.2.2.2⟩
  intro n
  exact ⟨(key n).1, (key n).2.1, (key n).2.2.1⟩

/-- Closed witness for `sensor_fault_not_propagated`: `sysC2` (heater
heating, sensor mid-reading with 230 °C accepted) fed the out-of-variance
stream `adcBad` (440 °C), observed over three heater polls. -/
theorem sensor_fault_not_propagated_witness :
    sysC2.heater.state = HState.HEATER_HEATING ∧
    (sensor_callback cfg0 adcBad sysC2.sensor 0).1.state =
      SensorState.SENSOR_SHUTDOWN ∧
    (sensor_callback cfg0 adcBad sysC2.sensor 0).1.code =
      SensorCode.SENSOR_READING_FAILED_BAD_READINGS ∧
    ((heater_callback cfg0)^[3]
      { sysC2 with sensor := (sensor_callback cfg0 adcBad sysC2.sensor 0).1
        }).heater.state = HState.HEATER_HEATING ∧
    ((heater_callback cfg0)^[3]
      { sysC2 with sensor := (sensor_callback cfg0 adcBad sysC2.sensor 0).1
        }).device = sysC2.device := by
  have h1 : sysC2.sensor.state ≠ SensorState.SENSOR_OFF := by intro hc; cases hc
  have h2 : sysC2.sensor.state ≠ SensorState.SENSOR_SHUTDOWN := by
    intro hc; cases hc
  have hcode : sysC2.sensor.code ≠ SensorCode.SENSOR_READING_COMPLETE := by
    intro hc; cases hc
  have hs : sysC2.sensor.samples ≠ 0 := by
    show (1 : ℕ) ≠ 0
    norm_num
  have hSun : cfg0.SURFACE_OF_THE_SUN < cfg0.HOTTER_THAN_THE_SUN := by
    show (5505 : ℚ) < 10000
    norm_num
  have hfail : ∀ j, j ≤ sysC2.sensor.retries →
      ¬ |SAMPLE cfg0 adcBad (0 + j) - sysC2.sensor.previous_temp| <
        sysC2.sensor.variance := by
    intro j _
    show ¬ |((400 : ℕ) : ℚ) * (7/5) + (-120) - 230| < 20
    rw [abs_sub_lt_iff]
    norm_num
  have h := sensor_fault_not_propagated cfg0 adcBad sysC2 0 rfl h1 h2 hcode hs
    hSun hfail
  exact ⟨rfl, h.1.1, h.1.2, (h.2 3).1, (h.2 3).2.2⟩

end TinyG
